import Mathlib

/-!
Shallow embedding of the attention modules of this repository:

* `SelfAttention` (notebook `Self_Attention_Mechanism_in_Flax.ipynb`): a
  single-head scaled dot-product attention layer with three `nn.Dense`
  projections for Q, K, V.
* `MultiHeadAttention` (notebook `Implementing_Multi_Head_Attention_in_Flax.ipynb`):
  three projections to `num_heads * head_dim`, split into heads by
  `reshape`/`transpose`, batched scaled dot-product attention, recombination
  by `transpose`/`reshape(batch, seq, -1)` and a final output projection.

Tensors are modelled as dense arrays with runtime shapes: a shape tuple
together with an index function into the reals.  JAX operations that check
shapes at run time (`nn.Dense.__call__`, `jnp.matmul`, `reshape`) are
modelled as `Except`-valued functions that reject exactly the shapes JAX
rejects.  Real-number semantics stands in for IEEE-754 floating point.
-/

open scoped BigOperators

namespace AttentionFlax

/-- A dense rank-3 array: a runtime shape `(d1, d2, d3)` together with its
elements, indexed in row-major fashion by coordinates. -/
structure Tensor3 where
  d1 : ℕ
  d2 : ℕ
  d3 : ℕ
  data : Fin d1 → Fin d2 → Fin d3 → ℝ

/-- A dense rank-4 array with runtime shape `(d1, d2, d3, d4)`. -/
structure Tensor4 where
  d1 : ℕ
  d2 : ℕ
  d3 : ℕ
  d4 : ℕ
  data : Fin d1 → Fin d2 → Fin d3 → Fin d4 → ℝ

/-- Parameters of one `nn.Dense` layer: a kernel of shape `(dIn, dOut)` and a
bias of shape `(dOut,)`, as created by `model.init`. -/
structure DenseParams where
  dIn : ℕ
  dOut : ℕ
  kernel : Fin dIn → Fin dOut → ℝ
  bias : Fin dOut → ℝ

/-- Application of `nn.Dense` to a rank-3 input: `y = x @ kernel + bias`, contracting
the trailing axis of `x` with the kernel.  JAX rejects the call when the
trailing dimension of the input does not match the kernel's input width. -/
noncomputable def denseApply (p : DenseParams) (x : Tensor3) :
    Except String Tensor3 :=
  if h : x.d3 = p.dIn then
    .ok ⟨x.d1, x.d2, p.dOut, fun b s o =>
      (∑ i : Fin p.dIn, x.data b s (Fin.cast h.symm i) * p.kernel i o) + p.bias o⟩
  else .error "Dense: input trailing dimension mismatch"

/-- Transpose `t.transpose(0, 2, 1)`: swap the last two axes of a rank-3 array. -/
def Tensor3.transpose021 (t : Tensor3) : Tensor3 :=
  ⟨t.d1, t.d3, t.d2, fun a c b => t.data a b c⟩

/-- Transpose `t.transpose(0, 2, 1, 3)`: swap the two middle axes of a rank-4 array. -/
def Tensor4.transpose0213 (t : Tensor4) : Tensor4 :=
  ⟨t.d1, t.d3, t.d2, t.d4, fun a c b d => t.data a b c d⟩

/-- Transpose `t.transpose(0, 1, 3, 2)`: swap the last two axes of a rank-4 array. -/
def Tensor4.transpose0132 (t : Tensor4) : Tensor4 :=
  ⟨t.d1, t.d2, t.d4, t.d3, fun a b d c => t.data a b c d⟩

/-- Batched `jnp.matmul` on rank-3 operands: batched over the first axis, matrix
multiply over the last two.  JAX rejects mismatched batch or contraction
dimensions. -/
noncomputable def matmul3 (a b : Tensor3) : Except String Tensor3 :=
  if h : a.d1 = b.d1 ∧ a.d3 = b.d2 then
    .ok ⟨a.d1, a.d2, b.d3, fun i s t =>
      ∑ j : Fin a.d3, a.data i s j * b.data (Fin.cast h.1 i) (Fin.cast h.2 j) t⟩
  else .error "matmul: shape mismatch"

/-- Batched `jnp.matmul` on rank-4 operands: batched over the first two axes, matrix
multiply over the last two. -/
noncomputable def matmul4 (a b : Tensor4) : Except String Tensor4 :=
  if h : a.d1 = b.d1 ∧ a.d2 = b.d2 ∧ a.d4 = b.d3 then
    .ok ⟨a.d1, a.d2, a.d3, b.d4, fun i hh s t =>
      ∑ j : Fin a.d4,
        a.data i hh s j * b.data (Fin.cast h.1 i) (Fin.cast h.2.1 hh) (Fin.cast h.2.2 j) t⟩
  else .error "matmul: shape mismatch"

/-- Elementwise division of a rank-3 array by a scalar (`scores / jnp.sqrt(d)`). -/
noncomputable def scalarDiv3 (t : Tensor3) (c : ℝ) : Tensor3 :=
  ⟨t.d1, t.d2, t.d3, fun b i j => t.data b i j / c⟩

/-- Elementwise division of a rank-4 array by a scalar. -/
noncomputable def scalarDiv4 (t : Tensor4) (c : ℝ) : Tensor4 :=
  ⟨t.d1, t.d2, t.d3, t.d4, fun b h i j => t.data b h i j / c⟩

/-- Softmax of one row: `exp (v j) / ∑ k, exp (v k)`.  Over the reals this is
exactly `nn.softmax`; the row-max subtraction the library performs for
floating-point stability is a no-op here (see `softmaxRow_shift`). -/
noncomputable def softmaxRow {n : ℕ} (v : Fin n → ℝ) : Fin n → ℝ :=
  fun j => Real.exp (v j) / ∑ k : Fin n, Real.exp (v k)

/-- Softmax `nn.softmax(t, axis=-1)` on a rank-3 array. -/
noncomputable def softmax3 (t : Tensor3) : Tensor3 :=
  ⟨t.d1, t.d2, t.d3, fun b i => softmaxRow (t.data b i)⟩

/-- Softmax `nn.softmax(t, axis=-1)` on a rank-4 array. -/
noncomputable def softmax4 (t : Tensor4) : Tensor4 :=
  ⟨t.d1, t.d2, t.d3, t.d4, fun b h i => softmaxRow (t.data b h i)⟩

/-- The flat feature index of coordinate `d` of head `h`, in row-major order:
feature `h * D + d`. -/
def finPair {H D : ℕ} (h : Fin H) (d : Fin D) : Fin (H * D) :=
  ⟨h.1 * D + d.1, by
    calc h.1 * D + d.1 < h.1 * D + D := Nat.add_lt_add_left d.2 _
    _ = (h.1 + 1) * D := (Nat.succ_mul h.1 D).symm
    _ ≤ H * D := Nat.mul_le_mul_right D h.2⟩

/-- Reshape `q.reshape(batch_size, seq_len, num_heads, head_dim)` on a rank-3 array,
keeping the two leading axes and splitting the trailing one row-major.
`jnp.reshape` requires the element counts to agree. -/
def reshapeSplitHeads (x : Tensor3) (H D : ℕ) : Except String Tensor4 :=
  if x.d1 * x.d2 * x.d3 = x.d1 * x.d2 * (H * D) then
    .ok ⟨x.d1, x.d2, H, D, fun b s h d =>
      if hlt : h.1 * D + d.1 < x.d3 then x.data b s ⟨h.1 * D + d.1, hlt⟩ else 0⟩
  else .error "reshape: total size mismatch"

/-- Reshape `t.reshape(batch_size, seq_len, -1)` on a rank-4 array: flatten the two
trailing axes row-major.  Following numpy/JAX semantics, the `-1` dimension
cannot be inferred when the product of the specified dimensions is zero, so
the call is rejected for size-0 arrays. -/
def reshapeFlattenLast (t : Tensor4) : Except String Tensor3 :=
  if 0 < t.d1 * t.d2 then
    .ok ⟨t.d1, t.d2, t.d3 * t.d4, fun b s f => t.data b s f.divNat f.modNat⟩
  else .error "reshape: cannot infer -1 dimension from a size-0 array"

/-- Configuration fields of the `SelfAttention` module (a frozen Flax
dataclass): `embed_dim` and `head_dim`. -/
structure SelfAttentionConfig where
  embed_dim : ℕ
  head_dim : ℕ

/-- The parameters `setup` creates for `SelfAttention`: three `nn.Dense`
layers for the Q, K and V projections. -/
structure SelfAttentionParams where
  query : DenseParams
  key : DenseParams
  value : DenseParams

/-- Construction `SelfAttention(embed_dim=…, head_dim=…)`: dataclass construction.  The
source performs no validation whatsoever, so construction never rejects; the
`Except` wrapper expresses the construction-may-reject interface of the
spec. -/
def selfAttentionConstruct (embed_dim head_dim : ℤ) : Except String (ℤ × ℤ) :=
  .ok (embed_dim, head_dim)

/-- Construction `MultiHeadAttention(embed_dim=…, num_heads=…, head_dim=…)`: dataclass
construction; again the source performs no validation. -/
def multiHeadAttentionConstruct (embed_dim num_heads head_dim : ℤ) :
    Except String (ℤ × ℤ × ℤ) :=
  .ok (embed_dim, num_heads, head_dim)

/-- Forward pass `SelfAttention.__call__`:
`q = query(x)`, `k = key(x)`, `v = value(x)`,
`scores = matmul(q, k.transpose(0,2,1))`, `scores = scores / sqrt(head_dim)`,
`attn_weights = softmax(scores, axis=-1)`, `output = matmul(attn_weights, v)`,
returning `(output, attn_weights)`. -/
noncomputable def SelfAttention.forward (cfg : SelfAttentionConfig)
    (p : SelfAttentionParams) (x : Tensor3) : Except String (Tensor3 × Tensor3) :=
  (denseApply p.query x).bind fun q =>
  (denseApply p.key x).bind fun k =>
  (denseApply p.value x).bind fun v =>
  (matmul3 q k.transpose021).bind fun scores =>
  let scaled := scalarDiv3 scores (Real.sqrt cfg.head_dim)
  let attn_weights := softmax3 scaled
  (matmul3 attn_weights v).map fun output => (output, attn_weights)

/-- The parameters `setup` creates for `MultiHeadAttention`: Q, K, V
projections and the final output projection `out`. -/
structure MultiHeadAttentionParams where
  query : DenseParams
  key : DenseParams
  value : DenseParams
  out : DenseParams

/-- Configuration fields of the `MultiHeadAttention` module. -/
structure MultiHeadAttentionConfig where
  embed_dim : ℕ
  num_heads : ℕ
  head_dim : ℕ

/-- Forward pass `MultiHeadAttention.__call__`:
project to Q, K, V, `reshape(batch, seq, num_heads, head_dim)` and
`transpose(0,2,1,3)` each; `scores = matmul(q, k.transpose(0,1,3,2)) /
sqrt(head_dim)`; `attn_weights = softmax(scores, axis=-1)`;
`attn_output = matmul(attn_weights, v)` then `transpose(0,2,1,3)` and
`reshape(batch, seq, -1)`; finally `output = out(attn_output)`, returning
`(output, attn_weights)`. -/
noncomputable def MultiHeadAttention.forward (cfg : MultiHeadAttentionConfig)
    (p : MultiHeadAttentionParams) (x : Tensor3) : Except String (Tensor3 × Tensor4) :=
  (denseApply p.query x).bind fun q3 =>
  (reshapeSplitHeads q3 cfg.num_heads cfg.head_dim).bind fun q4 =>
  (denseApply p.key x).bind fun k3 =>
  (reshapeSplitHeads k3 cfg.num_heads cfg.head_dim).bind fun k4 =>
  (denseApply p.value x).bind fun v3 =>
  (reshapeSplitHeads v3 cfg.num_heads cfg.head_dim).bind fun v4 =>
  let q := q4.transpose0213
  let k := k4.transpose0213
  let v := v4.transpose0213
  (matmul4 q k.transpose0132).bind fun scores =>
  let scaled := scalarDiv4 scores (Real.sqrt cfg.head_dim)
  let attn_weights := softmax4 scaled
  (matmul4 attn_weights v).bind fun attn_output =>
  (reshapeFlattenLast attn_output.transpose0213).bind fun flat =>
  (denseApply p.out flat).map fun output => (output, attn_weights)

/-!
Specification-side definitions.  These follow the wording of the spec and of
the claims (affine projection, scaled dot-product attention as explicit
sums, per-head slicing and head-order concatenation) and are compared with
the source-side `forward` functions above.
-/

/-- The affine map `x @ W + b` of spec §4.1, on shape-indexed data. -/
noncomputable def denseFun {B S dIn dOut : ℕ} (W : Fin dIn → Fin dOut → ℝ)
    (bias : Fin dOut → ℝ) (xf : Fin B → Fin S → Fin dIn → ℝ) :
    Fin B → Fin S → Fin dOut → ℝ :=
  fun b s o => (∑ i : Fin dIn, xf b s i * W i o) + bias o

/-- Scaled dot-product attention of spec §4.2 as explicit sums:
`scores[b,i,j] = ∑ d, Q[b,i,d] * K[b,j,d]`, scaled by `1 / sqrt hd`,
softmax along the last axis, and `output[b,i,d] = ∑ j, weights[b,i,j] *
V[b,j,d]`.  Returns `(output, weights)`. -/
noncomputable def scaledDotProduct {B Sq Sk D : ℕ} (hd : ℕ)
    (q : Fin B → Fin Sq → Fin D → ℝ) (k : Fin B → Fin Sk → Fin D → ℝ)
    (v : Fin B → Fin Sk → Fin D → ℝ) :
    (Fin B → Fin Sq → Fin D → ℝ) × (Fin B → Fin Sq → Fin Sk → ℝ) :=
  let weights : Fin B → Fin Sq → Fin Sk → ℝ := fun b i =>
    softmaxRow (fun j => (∑ d : Fin D, q b i d * k b j d) / Real.sqrt hd)
  (fun b i d => ∑ j : Fin Sk, weights b i j * v b j d, weights)

/-- The single-head forward contract of claim C1: `(output, attn_weights)`
with `Q = x@Wq+bq`, `K = x@Wk+bk`, `V = x@Wv+bv` fed to scaled dot-product
attention. -/
noncomputable def selfAttentionSpec (B S d hd : ℕ)
    (Wq : Fin d → Fin hd → ℝ) (bq : Fin hd → ℝ)
    (Wk : Fin d → Fin hd → ℝ) (bk : Fin hd → ℝ)
    (Wv : Fin d → Fin hd → ℝ) (bv : Fin hd → ℝ)
    (xf : Fin B → Fin S → Fin d → ℝ) : Tensor3 × Tensor3 :=
  let sdp := scaledDotProduct hd (denseFun Wq bq xf) (denseFun Wk bk xf) (denseFun Wv bv xf)
  (⟨B, S, hd, sdp.1⟩, ⟨B, S, S, sdp.2⟩)

/-- Head `h` of a projection to `num_heads * head_dim` features: the slice of
feature indices `h * D + d` for `d < D` (head-index-major order). -/
noncomputable def headProj {B S d H D : ℕ} (W : Fin d → Fin (H * D) → ℝ)
    (bias : Fin (H * D) → ℝ) (xf : Fin B → Fin S → Fin d → ℝ) (h : Fin H) :
    Fin B → Fin S → Fin D → ℝ :=
  fun b s dd => denseFun W bias xf b s (finPair h dd)

/-- Concatenation of per-head feature vectors along the feature axis in
head-index order: flat feature `f` is coordinate `f % D` of head `f / D`. -/
def concatHeads {B S H D : ℕ} (heads : Fin H → Fin B → Fin S → Fin D → ℝ) :
    Fin B → Fin S → Fin (H * D) → ℝ :=
  fun b s f => heads f.divNat b s f.modNat

/-- The multi-head forward contract of claim C2: per-head scaled dot-product
attention over per-head slices of the three projections, head-order
concatenation, and the final output projection; the per-head attention
weights are returned unreduced. -/
noncomputable def multiHeadAttentionSpec (B S d E H D : ℕ)
    (Wq : Fin d → Fin (H * D) → ℝ) (bq : Fin (H * D) → ℝ)
    (Wk : Fin d → Fin (H * D) → ℝ) (bk : Fin (H * D) → ℝ)
    (Wv : Fin d → Fin (H * D) → ℝ) (bv : Fin (H * D) → ℝ)
    (Wo : Fin (H * D) → Fin E → ℝ) (bo : Fin E → ℝ)
    (xf : Fin B → Fin S → Fin d → ℝ) : Tensor3 × Tensor4 :=
  let headOut := fun h : Fin H =>
    scaledDotProduct D (headProj Wq bq xf h) (headProj Wk bk xf h) (headProj Wv bv xf h)
  (⟨B, S, E, denseFun Wo bo (concatHeads fun h => (headOut h).1)⟩,
   ⟨B, H, S, S, fun b h => (headOut h).2 b⟩)

/-! Basic reduction lemmas. -/

theorem fin_cast_self {n : ℕ} (h : n = n) (i : Fin n) : Fin.cast h i = i := rfl

theorem except_bind_ok_arg {ε α β : Type} (a : α) (f : α → Except ε β) :
    (Except.ok a : Except ε α).bind f = f a := rfl

theorem except_bind_error_arg {ε α β : Type} (m : ε) (f : α → Except ε β) :
    (Except.error m : Except ε α).bind f = .error m := rfl

theorem except_map_ok_arg {ε α β : Type} (a : α) (f : α → β) :
    (Except.ok a : Except ε α).map f = .ok (f a) := rfl

theorem except_map_error_arg {ε α β : Type} (m : ε) (f : α → β) :
    (Except.error m : Except ε α).map f = (.error m : Except ε β) := rfl

/-! Evaluation lemmas: each shape-checked operation applied to arguments of
the matching shape reduces to its `.ok` result. -/

theorem denseApply_mk (B S dIn dOut : ℕ) (W : Fin dIn → Fin dOut → ℝ)
    (bias : Fin dOut → ℝ) (xf : Fin B → Fin S → Fin dIn → ℝ) :
    denseApply ⟨dIn, dOut, W, bias⟩ ⟨B, S, dIn, xf⟩ =
      .ok ⟨B, S, dOut, denseFun W bias xf⟩ := by
  unfold denseApply
  split
  · rfl
  · next hc => exact absurd rfl hc

theorem matmul3_mk (B M N T : ℕ) (f : Fin B → Fin M → Fin N → ℝ)
    (g : Fin B → Fin N → Fin T → ℝ) :
    matmul3 ⟨B, M, N, f⟩ ⟨B, N, T, g⟩ =
      .ok ⟨B, M, T, fun b m t => ∑ j : Fin N, f b m j * g b j t⟩ := by
  unfold matmul3
  split
  · rfl
  · next hc => exact absurd ⟨rfl, rfl⟩ hc

theorem matmul4_mk (B X M N T : ℕ) (f : Fin B → Fin X → Fin M → Fin N → ℝ)
    (g : Fin B → Fin X → Fin N → Fin T → ℝ) :
    matmul4 ⟨B, X, M, N, f⟩ ⟨B, X, N, T, g⟩ =
      .ok ⟨B, X, M, T, fun b x m t => ∑ j : Fin N, f b x m j * g b x j t⟩ := by
  unfold matmul4
  split
  · rfl
  · next hc => exact absurd ⟨rfl, rfl, rfl⟩ hc

theorem reshapeSplitHeads_mk (B S H D : ℕ) (f : Fin B → Fin S → Fin (H * D) → ℝ) :
    reshapeSplitHeads ⟨B, S, H * D, f⟩ H D =
      .ok ⟨B, S, H, D, fun b s h d => f b s (finPair h d)⟩ := by
  unfold reshapeSplitHeads
  split
  · refine congrArg (fun dd => Except.ok (Tensor4.mk B S H D dd)) ?_
    funext b s h d
    split
    · rfl
    · next hno => exact absurd (finPair h d).isLt hno
  · next hc => exact absurd rfl hc

theorem reshapeFlattenLast_mk (B S H D : ℕ) (hBS : 0 < B * S)
    (f : Fin B → Fin S → Fin H → Fin D → ℝ) :
    reshapeFlattenLast ⟨B, S, H, D, f⟩ =
      .ok ⟨B, S, H * D, fun b s ff => f b s ff.divNat ff.modNat⟩ := by
  unfold reshapeFlattenLast
  split
  · rfl
  · next hc => exact absurd hBS hc

/-- Full evaluation of the single-head forward pass on inputs and parameters
of the shapes `model.init` produces: it succeeds and returns exactly the
scaled dot-product attention of the three projections. -/
theorem selfAttention_forward_eval (B S d E hd : ℕ)
    (Wq : Fin d → Fin hd → ℝ) (bq : Fin hd → ℝ)
    (Wk : Fin d → Fin hd → ℝ) (bk : Fin hd → ℝ)
    (Wv : Fin d → Fin hd → ℝ) (bv : Fin hd → ℝ)
    (xf : Fin B → Fin S → Fin d → ℝ) :
    SelfAttention.forward ⟨E, hd⟩ ⟨⟨d, hd, Wq, bq⟩, ⟨d, hd, Wk, bk⟩, ⟨d, hd, Wv, bv⟩⟩
        ⟨B, S, d, xf⟩ =
      .ok (selfAttentionSpec B S d hd Wq bq Wk bk Wv bv xf) := by
  unfold SelfAttention.forward
  simp only [denseApply_mk, except_bind_ok_arg, Tensor3.transpose021, matmul3_mk,
    scalarDiv3, softmax3, except_map_ok_arg, selfAttentionSpec, scaledDotProduct,
    denseFun]

/-- Full evaluation of the multi-head forward pass on inputs and parameters
of the shapes `model.init` produces, for a nonempty batch and sequence: it
succeeds and returns the per-head scaled dot-product attention composition.
(For `B * S = 0` the final `reshape(batch, seq, -1)` is rejected instead;
see the empty-sequence results.) -/
theorem multiHeadAttention_forward_eval (B S d E H D : ℕ) (hB : 0 < B) (hS : 0 < S)
    (Wq : Fin d → Fin (H * D) → ℝ) (bq : Fin (H * D) → ℝ)
    (Wk : Fin d → Fin (H * D) → ℝ) (bk : Fin (H * D) → ℝ)
    (Wv : Fin d → Fin (H * D) → ℝ) (bv : Fin (H * D) → ℝ)
    (Wo : Fin (H * D) → Fin E → ℝ) (bo : Fin E → ℝ)
    (xf : Fin B → Fin S → Fin d → ℝ) :
    MultiHeadAttention.forward ⟨E, H, D⟩
        ⟨⟨d, H * D, Wq, bq⟩, ⟨d, H * D, Wk, bk⟩, ⟨d, H * D, Wv, bv⟩, ⟨H * D, E, Wo, bo⟩⟩
        ⟨B, S, d, xf⟩ =
      .ok (multiHeadAttentionSpec B S d E H D Wq bq Wk bk Wv bv Wo bo xf) := by
  unfold MultiHeadAttention.forward
  simp only [denseApply_mk, except_bind_ok_arg, reshapeSplitHeads_mk,
    Tensor4.transpose0213, Tensor4.transpose0132, matmul4_mk, scalarDiv4, softmax4,
    reshapeFlattenLast_mk B S H D (Nat.mul_pos hB hS), except_map_ok_arg,
    multiHeadAttentionSpec, scaledDotProduct, headProj, concatHeads, denseFun]
  rfl

/-! Properties of the softmax row. -/

theorem softmaxRow_nonneg {n : ℕ} (v : Fin n → ℝ) (j : Fin n) : 0 ≤ softmaxRow v j :=
  div_nonneg (Real.exp_pos _).le (Finset.sum_nonneg fun k _ => (Real.exp_pos (v k)).le)

theorem softmaxRow_sum_pos {n : ℕ} (hn : n ≠ 0) (v : Fin n → ℝ) :
    0 < ∑ k : Fin n, Real.exp (v k) :=
  Finset.sum_pos (fun k _ => Real.exp_pos (v k))
    ⟨⟨0, Nat.pos_of_ne_zero hn⟩, Finset.mem_univ _⟩

theorem softmaxRow_le_one {n : ℕ} (v : Fin n → ℝ) (j : Fin n) : softmaxRow v j ≤ 1 := by
  unfold softmaxRow
  refine div_le_one_of_le₀ ?_ ?_
  · exact Finset.single_le_sum (fun k _ => (Real.exp_pos (v k)).le) (Finset.mem_univ j)
  · exact Finset.sum_nonneg fun k _ => (Real.exp_pos (v k)).le

theorem softmaxRow_sum {n : ℕ} (hn : n ≠ 0) (v : Fin n → ℝ) :
    ∑ j : Fin n, softmaxRow v j = 1 := by
  unfold softmaxRow
  rw [← Finset.sum_div]
  exact div_self (softmaxRow_sum_pos hn v).ne'

/-- Softmax of a constant row is uniform: every entry is `1 / n`. -/
theorem softmaxRow_const {n : ℕ} (v : Fin n → ℝ) (c : ℝ) (hv : ∀ j, v j = c)
    (j : Fin n) : softmaxRow v j = 1 / n := by
  have hn : n ≠ 0 := Fin.pos_iff_nonempty.2 ⟨j⟩ |>.ne'
  unfold softmaxRow
  have hnR : (n : ℝ) ≠ 0 := Nat.cast_ne_zero.2 hn
  rw [hv j, Finset.sum_congr rfl fun k _ => by rw [hv k], Finset.sum_const,
    Finset.card_univ, Fintype.card_fin, nsmul_eq_mul]
  rw [div_eq_div_iff (mul_ne_zero hnR (Real.exp_pos c).ne') hnR]
  ring

/-- Shift invariance of the softmax row: subtracting any constant from every
entry (in particular the row maximum, as `nn.softmax` does for floating-point
stability) leaves the result unchanged over the reals. -/
theorem softmaxRow_shift {n : ℕ} (v : Fin n → ℝ) (c : ℝ) :
    softmaxRow (fun j => v j - c) = softmaxRow v := by
  funext j
  unfold softmaxRow
  have hc : Real.exp c ≠ 0 := (Real.exp_pos c).ne'
  simp only [Real.exp_sub]
  rw [← Finset.sum_div, div_div_div_cancel_right₀ hc]

/-! Inversion lemmas: what a successful run of each shape-checked operation
says about its operands and result. -/

theorem except_bind_ok {ε α β : Type} {e : Except ε α} {f : α → Except ε β} {r : β}
    (h : e.bind f = .ok r) : ∃ a, e = .ok a ∧ f a = .ok r := by
  cases e with
  | error m => exact absurd h (by simp [Except.bind])
  | ok a => exact ⟨a, rfl, h⟩

theorem except_map_ok {ε α β : Type} {e : Except ε α} {f : α → β} {r : β}
    (h : e.map f = .ok r) : ∃ a, e = .ok a ∧ f a = r := by
  cases e with
  | error m => exact absurd h (by simp [Except.map])
  | ok a => exact ⟨a, rfl, by simpa [Except.map] using h⟩

theorem denseApply_ok_dims {p : DenseParams} {x y : Tensor3}
    (h : denseApply p x = .ok y) :
    y.d1 = x.d1 ∧ y.d2 = x.d2 ∧ y.d3 = p.dOut ∧ x.d3 = p.dIn := by
  unfold denseApply at h
  split at h
  · next hc =>
    injection h with h
    exact ⟨by rw [← h], by rw [← h], by rw [← h], hc⟩
  · exact absurd h (by simp)

theorem matmul3_ok_dims {a b c : Tensor3} (h : matmul3 a b = .ok c) :
    c.d1 = a.d1 ∧ c.d2 = a.d2 ∧ c.d3 = b.d3 := by
  unfold matmul3 at h
  split at h
  · injection h with h
    exact ⟨by rw [← h], by rw [← h], by rw [← h]⟩
  · exact absurd h (by simp)

theorem matmul4_ok_dims {a b c : Tensor4} (h : matmul4 a b = .ok c) :
    c.d1 = a.d1 ∧ c.d2 = a.d2 ∧ c.d3 = a.d3 ∧ c.d4 = b.d4 := by
  unfold matmul4 at h
  split at h
  · injection h with h
    exact ⟨by rw [← h], by rw [← h], by rw [← h], by rw [← h]⟩
  · exact absurd h (by simp)

theorem reshapeSplitHeads_ok_dims {x : Tensor3} {H D : ℕ} {y : Tensor4}
    (h : reshapeSplitHeads x H D = .ok y) :
    y.d1 = x.d1 ∧ y.d2 = x.d2 ∧ y.d3 = H ∧ y.d4 = D := by
  unfold reshapeSplitHeads at h
  split at h
  · injection h with h
    exact ⟨by rw [← h], by rw [← h], by rw [← h], by rw [← h]⟩
  · exact absurd h (by simp)

theorem reshapeFlattenLast_ok_dims {t : Tensor4} {y : Tensor3}
    (h : reshapeFlattenLast t = .ok y) :
    y.d1 = t.d1 ∧ y.d2 = t.d2 ∧ y.d3 = t.d3 * t.d4 := by
  unfold reshapeFlattenLast at h
  split at h
  · injection h with h
    exact ⟨by rw [← h], by rw [← h], by rw [← h]⟩
  · exact absurd h (by simp)

/-- Structure of a successful single-head forward run: the returned weights
are the softmax of the scaled score matrix, whose last two dimensions both
equal the sequence length, and the output dimensions follow the value
projection. -/
theorem selfAttention_forward_ok {cfg : SelfAttentionConfig} {p : SelfAttentionParams}
    {x out w : Tensor3} (h : SelfAttention.forward cfg p x = .ok (out, w)) :
    ∃ scores : Tensor3,
      w = softmax3 (scalarDiv3 scores (Real.sqrt cfg.head_dim)) ∧
      scores.d1 = x.d1 ∧ scores.d2 = x.d2 ∧ scores.d3 = x.d2 ∧
      out.d1 = x.d1 ∧ out.d2 = x.d2 ∧ out.d3 = p.value.dOut := by
  unfold SelfAttention.forward at h
  obtain ⟨q, hq, h⟩ := except_bind_ok h
  obtain ⟨k, hk, h⟩ := except_bind_ok h
  obtain ⟨v, hv, h⟩ := except_bind_ok h
  obtain ⟨scores, hsc, h⟩ := except_bind_ok h
  obtain ⟨o, ho, h⟩ := except_map_ok h
  rw [Prod.mk.injEq] at h
  obtain ⟨h1, h2⟩ := h
  subst h1
  obtain ⟨hq1, hq2, hq3, hq4⟩ := denseApply_ok_dims hq
  obtain ⟨hk1, hk2, hk3, hk4⟩ := denseApply_ok_dims hk
  obtain ⟨hv1, hv2, hv3, hv4⟩ := denseApply_ok_dims hv
  obtain ⟨hs1, hs2, hs3⟩ := matmul3_ok_dims hsc
  obtain ⟨ho1, ho2, ho3⟩ := matmul3_ok_dims ho
  refine ⟨scores, h2.symm, hs1.trans hq1, hs2.trans hq2, ?_, ?_, ?_, ho3.trans hv3⟩
  · exact hs3.trans hk2
  · exact ho1.trans (hs1.trans hq1)
  · exact ho2.trans (hs2.trans hq2)

/-- Structure of a successful multi-head forward run: the returned weights
are the softmax of the scaled 4-rank score tensor of shape
`(batch, num_heads, seq, seq)`, and the output dimensions follow the final
projection. -/
theorem multiHeadAttention_forward_ok {cfg : MultiHeadAttentionConfig}
    {p : MultiHeadAttentionParams} {x out : Tensor3} {w : Tensor4}
    (h : MultiHeadAttention.forward cfg p x = .ok (out, w)) :
    ∃ scores : Tensor4,
      w = softmax4 (scalarDiv4 scores (Real.sqrt cfg.head_dim)) ∧
      scores.d1 = x.d1 ∧ scores.d2 = cfg.num_heads ∧ scores.d3 = x.d2 ∧
      scores.d4 = x.d2 ∧ out.d1 = x.d1 ∧ out.d2 = x.d2 ∧ out.d3 = p.out.dOut := by
  unfold MultiHeadAttention.forward at h
  obtain ⟨q3, hq3, h⟩ := except_bind_ok h
  obtain ⟨q4, hq4, h⟩ := except_bind_ok h
  obtain ⟨k3, hk3, h⟩ := except_bind_ok h
  obtain ⟨k4, hk4, h⟩ := except_bind_ok h
  obtain ⟨v3, hv3, h⟩ := except_bind_ok h
  obtain ⟨v4, hv4, h⟩ := except_bind_ok h
  obtain ⟨scores, hsc, h⟩ := except_bind_ok h
  obtain ⟨ao, hao, h⟩ := except_bind_ok h
  obtain ⟨flat, hflat, h⟩ := except_bind_ok h
  obtain ⟨o, ho, h⟩ := except_map_ok h
  rw [Prod.mk.injEq] at h
  obtain ⟨h1, h2⟩ := h
  subst h1
  obtain ⟨hqa, hqb, hqc, hqd⟩ := denseApply_ok_dims hq3
  obtain ⟨hka, hkb, hkc, hkd⟩ := denseApply_ok_dims hk3
  obtain ⟨hq4a, hq4b, hq4c, hq4d⟩ := reshapeSplitHeads_ok_dims hq4
  obtain ⟨hk4a, hk4b, hk4c, hk4d⟩ := reshapeSplitHeads_ok_dims hk4
  obtain ⟨hsa, hsb, hsc3, hsd⟩ := matmul4_ok_dims hsc
  obtain ⟨haa, hab, hac, had⟩ := matmul4_ok_dims hao
  obtain ⟨hfa, hfb, hfc⟩ := reshapeFlattenLast_ok_dims hflat
  obtain ⟨hoa, hob, hoc, hod⟩ := denseApply_ok_dims ho
  refine ⟨scores, h2.symm, ?_, ?_, ?_, ?_, ?_, ?_, hoc⟩
  · exact hsa.trans (hq4a.trans hqa)
  · exact hsb.trans hq4c
  · exact hsc3.trans (hq4b.trans hqb)
  · exact hsd.trans (hk4b.trans hkb)
  · exact hoa.trans (hfa.trans (haa.trans (hsa.trans (hq4a.trans hqa))))
  · exact hob.trans (hfb.trans (hac.trans (hsc3.trans (hq4b.trans hqb))))

/-! Concrete parameter sets and inputs used to exercise the theorems. -/

def zeroKernel (m n : ℕ) : Fin m → Fin n → ℝ := fun _ _ => 0

def zeroBias (n : ℕ) : Fin n → ℝ := fun _ => 0

def zeroInput (B S d : ℕ) : Fin B → Fin S → Fin d → ℝ := fun _ _ _ => 0

def zeroDense (m n : ℕ) : DenseParams := ⟨m, n, zeroKernel m n, zeroBias n⟩

/-- Zero-initialized single-head parameters for the notebook scenario
`embed_dim=64, head_dim=32`. -/
def saDemoParams : SelfAttentionParams :=
  ⟨zeroDense 64 32, zeroDense 64 32, zeroDense 64 32⟩

/-- The notebook example input shape `(1, 5, 64)`. -/
def demoInput : Tensor3 := ⟨1, 5, 64, zeroInput 1 5 64⟩

/-- The single-head forward result on the demo configuration. -/
noncomputable def saDemoResult : Tensor3 × Tensor3 :=
  selfAttentionSpec 1 5 64 32 (zeroKernel 64 32) (zeroBias 32) (zeroKernel 64 32)
    (zeroBias 32) (zeroKernel 64 32) (zeroBias 32) (zeroInput 1 5 64)

/-- Zero-initialized multi-head parameters for the notebook scenario
`embed_dim=64, num_heads=4, head_dim=16`. -/
def mhaDemoParams : MultiHeadAttentionParams :=
  ⟨zeroDense 64 (4 * 16), zeroDense 64 (4 * 16), zeroDense 64 (4 * 16),
   zeroDense (4 * 16) 64⟩

/-- The multi-head forward result on the demo configuration. -/
noncomputable def mhaDemoResult : Tensor3 × Tensor4 :=
  multiHeadAttentionSpec 1 5 64 64 4 16 (zeroKernel 64 (4 * 16)) (zeroBias (4 * 16))
    (zeroKernel 64 (4 * 16)) (zeroBias (4 * 16)) (zeroKernel 64 (4 * 16))
    (zeroBias (4 * 16)) (zeroKernel (4 * 16) 64) (zeroBias 64) (zeroInput 1 5 64)

/-- Tiny zero-initialized single-head parameters (all dimensions 1). -/
def saTinyParams : SelfAttentionParams := ⟨zeroDense 1 1, zeroDense 1 1, zeroDense 1 1⟩

/-- Tiny zero-initialized multi-head parameters (all dimensions 1). -/
def mhaTinyParams : MultiHeadAttentionParams :=
  ⟨zeroDense 1 (1 * 1), zeroDense 1 (1 * 1), zeroDense 1 (1 * 1), zeroDense (1 * 1) 1⟩

/-- An input with an empty sequence axis: shape `(1, 0, 1)`. -/
def emptySeqInput : Tensor3 := ⟨1, 0, 1, zeroInput 1 0 1⟩

/-- On an empty sequence the multi-head forward pass is rejected at the
final `reshape(batch, seq, -1)`: the `-1` dimension of a size-0 array cannot
be inferred. -/
theorem mhaTiny_empty_error :
    MultiHeadAttention.forward ⟨1, 1, 1⟩ mhaTinyParams emptySeqInput =
      .error "reshape: cannot infer -1 dimension from a size-0 array" := rfl

/-- A `Dense` application with a mismatched trailing dimension is rejected. -/
theorem denseApply_mismatch {p : DenseParams} {x : Tensor3} (h : x.d3 ≠ p.dIn) :
    denseApply p x = .error "Dense: input trailing dimension mismatch" := by
  unfold denseApply
  rw [dif_neg h]

/-! Claim theorems. -/

/-- C1: For every parameter set (query, key and value weight matrices and
biases) and every input `x` of shape `(batch_size, seq_len, d)`, the
single-head forward call returns `(output, attn_weights)` where, with
`Q = x@Wq+bq`, `K = x@Wk+bk`, `V = x@Wv+bv`,
`scores[b,i,j] = ∑ d, Q[b,i,d]*K[b,j,d]`, `scaled = scores / sqrt head_dim`,
`attn_weights[b,i,:] = softmax (scaled[b,i,:])` along the last axis, and
`output[b,i,d] = ∑ j, attn_weights[b,i,j]*V[b,j,d]`. -/
theorem claim_c1_selfAttention_forward_formula (B S d E hd : ℕ)
    (Wq : Fin d → Fin hd → ℝ) (bq : Fin hd → ℝ)
    (Wk : Fin d → Fin hd → ℝ) (bk : Fin hd → ℝ)
    (Wv : Fin d → Fin hd → ℝ) (bv : Fin hd → ℝ)
    (xf : Fin B → Fin S → Fin d → ℝ) :
    SelfAttention.forward ⟨E, hd⟩ ⟨⟨d, hd, Wq, bq⟩, ⟨d, hd, Wk, bk⟩, ⟨d, hd, Wv, bv⟩⟩
        ⟨B, S, d, xf⟩ =
      .ok (selfAttentionSpec B S d hd Wq bq Wk bk Wv bv xf) :=
  selfAttention_forward_eval B S d E hd Wq bq Wk bk Wv bv xf

/-- C2 counterexample: on the empty-sequence input of shape `(1, 0, 1)` the
multi-head forward call does not equal the total composition described by
the claim — the final `reshape(batch, seq, -1)` rejects the call instead. -/
theorem claim_c2_counterexample :
    MultiHeadAttention.forward ⟨1, 1, 1⟩ mhaTinyParams emptySeqInput ≠
      .ok (multiHeadAttentionSpec 1 0 1 1 1 1 (zeroKernel 1 (1 * 1)) (zeroBias (1 * 1))
        (zeroKernel 1 (1 * 1)) (zeroBias (1 * 1)) (zeroKernel 1 (1 * 1)) (zeroBias (1 * 1))
        (zeroKernel (1 * 1) 1) (zeroBias 1) (zeroInput 1 0 1)) := by
  intro h
  rw [mhaTiny_empty_error] at h
  exact Except.noConfusion h

/-- C2 (amended: for nonempty batch and sequence): the multi-head forward
call equals the composition of three linear projections, per-head scaled
dot-product attention batched jointly over batch and heads, head-order
concatenation of the per-head outputs, and the final output projection,
returned together with the full per-head attention-weight tensor. -/
theorem claim_c2_multiHead_composition (B S d E H D : ℕ) (hB : 0 < B) (hS : 0 < S)
    (Wq : Fin d → Fin (H * D) → ℝ) (bq : Fin (H * D) → ℝ)
    (Wk : Fin d → Fin (H * D) → ℝ) (bk : Fin (H * D) → ℝ)
    (Wv : Fin d → Fin (H * D) → ℝ) (bv : Fin (H * D) → ℝ)
    (Wo : Fin (H * D) → Fin E → ℝ) (bo : Fin E → ℝ)
    (xf : Fin B → Fin S → Fin d → ℝ) :
    MultiHeadAttention.forward ⟨E, H, D⟩
        ⟨⟨d, H * D, Wq, bq⟩, ⟨d, H * D, Wk, bk⟩, ⟨d, H * D, Wv, bv⟩, ⟨H * D, E, Wo, bo⟩⟩
        ⟨B, S, d, xf⟩ =
      .ok (multiHeadAttentionSpec B S d E H D Wq bq Wk bk Wv bv Wo bo xf) :=
  multiHeadAttention_forward_eval B S d E H D hB hS Wq bq Wk bk Wv bv Wo bo xf

/-- C2 witness: the amended composition theorem applied at the notebook
scenario `batch=1, seq=5, embed_dim=64, num_heads=4, head_dim=16`. -/
theorem claim_c2_witness :
    0 < 1 ∧ 0 < 5 ∧
    MultiHeadAttention.forward ⟨64, 4, 16⟩ mhaDemoParams demoInput = .ok mhaDemoResult :=
  ⟨by decide, by decide,
    claim_c2_multiHead_composition 1 5 64 64 4 16 (by decide) (by decide)
      (zeroKernel 64 (4 * 16)) (zeroBias (4 * 16)) (zeroKernel 64 (4 * 16))
      (zeroBias (4 * 16)) (zeroKernel 64 (4 * 16)) (zeroBias (4 * 16))
      (zeroKernel (4 * 16) 64) (zeroBias 64) (zeroInput 1 5 64)⟩

/-- C3: for every valid input, every row of the returned attention-weight
tensor — fixed batch index, head index (multi-head) and query position —
sums to 1 and every entry lies in `[0, 1]`, for both the single-head and the
multi-head forward operation.  (A row exists exactly when the key sequence
is nonempty, since the weight tensor is square in its last two axes.) -/
theorem claim_c3_attention_weights_stochastic :
    (∀ (cfg : SelfAttentionConfig) (p : SelfAttentionParams) (x out w : Tensor3),
      SelfAttention.forward cfg p x = .ok (out, w) →
      ∀ (b : Fin w.d1) (i : Fin w.d2),
        (∑ j : Fin w.d3, w.data b i j) = 1 ∧
        ∀ j : Fin w.d3, 0 ≤ w.data b i j ∧ w.data b i j ≤ 1) ∧
    (∀ (cfg : MultiHeadAttentionConfig) (p : MultiHeadAttentionParams) (x out : Tensor3)
      (w : Tensor4),
      MultiHeadAttention.forward cfg p x = .ok (out, w) →
      ∀ (b : Fin w.d1) (hh : Fin w.d2) (i : Fin w.d3),
        (∑ j : Fin w.d4, w.data b hh i j) = 1 ∧
        ∀ j : Fin w.d4, 0 ≤ w.data b hh i j ∧ w.data b hh i j ≤ 1) := by
  constructor
  · intro cfg p x out w h b i
    obtain ⟨s, rfl, _, hs2, hs3, _⟩ := selfAttention_forward_ok h
    have hne : s.d3 ≠ 0 := by
      have hpos : 0 < s.d2 := i.pos
      omega
    exact ⟨softmaxRow_sum hne _, fun j =>
      ⟨softmaxRow_nonneg _ j, softmaxRow_le_one _ j⟩⟩
  · intro cfg p x out w h b hh i
    obtain ⟨s, rfl, _, _, hs3, hs4, _⟩ := multiHeadAttention_forward_ok h
    have hne : s.d4 ≠ 0 := by
      have hpos : 0 < s.d3 := i.pos
      omega
    exact ⟨softmaxRow_sum hne _, fun j =>
      ⟨softmaxRow_nonneg _ j, softmaxRow_le_one _ j⟩⟩

/-- C3 witness: both halves applied on the notebook demo configurations. -/
theorem claim_c3_witness :
    (SelfAttention.forward ⟨64, 32⟩ saDemoParams demoInput =
      .ok (saDemoResult.1, saDemoResult.2)) ∧
    (∀ (b : Fin saDemoResult.2.d1) (i : Fin saDemoResult.2.d2),
      (∑ j : Fin saDemoResult.2.d3, saDemoResult.2.data b i j) = 1 ∧
      ∀ j : Fin saDemoResult.2.d3,
        0 ≤ saDemoResult.2.data b i j ∧ saDemoResult.2.data b i j ≤ 1) ∧
    (MultiHeadAttention.forward ⟨64, 4, 16⟩ mhaDemoParams demoInput =
      .ok (mhaDemoResult.1, mhaDemoResult.2)) ∧
    (∀ (b : Fin mhaDemoResult.2.d1) (hh : Fin mhaDemoResult.2.d2)
      (i : Fin mhaDemoResult.2.d3),
      (∑ j : Fin mhaDemoResult.2.d4, mhaDemoResult.2.data b hh i j) = 1 ∧
      ∀ j : Fin mhaDemoResult.2.d4,
        0 ≤ mhaDemoResult.2.data b hh i j ∧ mhaDemoResult.2.data b hh i j ≤ 1) := by
  have h1 : SelfAttention.forward ⟨64, 32⟩ saDemoParams demoInput =
      .ok (saDemoResult.1, saDemoResult.2) :=
    selfAttention_forward_eval 1 5 64 64 32 (zeroKernel 64 32) (zeroBias 32)
      (zeroKernel 64 32) (zeroBias 32) (zeroKernel 64 32) (zeroBias 32) (zeroInput 1 5 64)
  have h2 : MultiHeadAttention.forward ⟨64, 4, 16⟩ mhaDemoParams demoInput =
      .ok (mhaDemoResult.1, mhaDemoResult.2) :=
    multiHeadAttention_forward_eval 1 5 64 64 4 16 (by decide) (by decide)
      (zeroKernel 64 (4 * 16)) (zeroBias (4 * 16)) (zeroKernel 64 (4 * 16))
      (zeroBias (4 * 16)) (zeroKernel 64 (4 * 16)) (zeroBias (4 * 16))
      (zeroKernel (4 * 16) 64) (zeroBias 64) (zeroInput 1 5 64)
  exact ⟨h1, claim_c3_attention_weights_stochastic.1 ⟨64, 32⟩ saDemoParams demoInput
      saDemoResult.1 saDemoResult.2 h1,
    h2, claim_c3_attention_weights_stochastic.2 ⟨64, 4, 16⟩ mhaDemoParams demoInput
      mhaDemoResult.1 mhaDemoResult.2 h2⟩

/-- C4: for every valid input of shape `(batch, seq, embed_dim)` and
parameters of the shapes `setup` creates, the single-head forward returns
`output` of shape `(batch, seq, head_dim)` and `attn_weights` of shape
`(batch, seq, seq)`, and the multi-head forward returns `output` of shape
`(batch, seq, embed_dim)` and `attn_weights` of shape
`(batch, num_heads, seq, seq)`. -/
theorem claim_c4_result_shapes :
    (∀ (cfg : SelfAttentionConfig) (p : SelfAttentionParams) (x out w : Tensor3),
      SelfAttention.forward cfg p x = .ok (out, w) →
      p.value.dOut = cfg.head_dim →
      out.d1 = x.d1 ∧ out.d2 = x.d2 ∧ out.d3 = cfg.head_dim ∧
      w.d1 = x.d1 ∧ w.d2 = x.d2 ∧ w.d3 = x.d2) ∧
    (∀ (cfg : MultiHeadAttentionConfig) (p : MultiHeadAttentionParams) (x out : Tensor3)
      (w : Tensor4),
      MultiHeadAttention.forward cfg p x = .ok (out, w) →
      p.out.dOut = cfg.embed_dim →
      out.d1 = x.d1 ∧ out.d2 = x.d2 ∧ out.d3 = cfg.embed_dim ∧
      w.d1 = x.d1 ∧ w.d2 = cfg.num_heads ∧ w.d3 = x.d2 ∧ w.d4 = x.d2) := by
  constructor
  · intro cfg p x out w h hsetup
    obtain ⟨s, rfl, hs1, hs2, hs3, ho1, ho2, ho3⟩ := selfAttention_forward_ok h
    exact ⟨ho1, ho2, ho3.trans hsetup, hs1, hs2, hs3⟩
  · intro cfg p x out w h hsetup
    obtain ⟨s, rfl, hs1, hs2, hs3, hs4, ho1, ho2, ho3⟩ := multiHeadAttention_forward_ok h
    exact ⟨ho1, ho2, ho3.trans hsetup, hs1, hs2, hs3, hs4⟩

/-- C4 witness: the notebook scenarios — single-head `(1,5,64)` input gives
shapes `(1,5,32)` and `(1,5,5)`; multi-head `batch=1, seq=5, embed_dim=64,
num_heads=4, head_dim=16` gives shapes `(1,5,64)` and `(1,4,5,5)`. -/
theorem claim_c4_witness :
    (SelfAttention.forward ⟨64, 32⟩ saDemoParams demoInput =
      .ok (saDemoResult.1, saDemoResult.2)) ∧
    (saDemoResult.1.d1 = 1 ∧ saDemoResult.1.d2 = 5 ∧ saDemoResult.1.d3 = 32 ∧
      saDemoResult.2.d1 = 1 ∧ saDemoResult.2.d2 = 5 ∧ saDemoResult.2.d3 = 5) ∧
    (MultiHeadAttention.forward ⟨64, 4, 16⟩ mhaDemoParams demoInput =
      .ok (mhaDemoResult.1, mhaDemoResult.2)) ∧
    (mhaDemoResult.1.d1 = 1 ∧ mhaDemoResult.1.d2 = 5 ∧ mhaDemoResult.1.d3 = 64 ∧
      mhaDemoResult.2.d1 = 1 ∧ mhaDemoResult.2.d2 = 4 ∧ mhaDemoResult.2.d3 = 5 ∧
      mhaDemoResult.2.d4 = 5) := by
  have h1 : SelfAttention.forward ⟨64, 32⟩ saDemoParams demoInput =
      .ok (saDemoResult.1, saDemoResult.2) :=
    selfAttention_forward_eval 1 5 64 64 32 (zeroKernel 64 32) (zeroBias 32)
      (zeroKernel 64 32) (zeroBias 32) (zeroKernel 64 32) (zeroBias 32) (zeroInput 1 5 64)
  have h2 : MultiHeadAttention.forward ⟨64, 4, 16⟩ mhaDemoParams demoInput =
      .ok (mhaDemoResult.1, mhaDemoResult.2) :=
    multiHeadAttention_forward_eval 1 5 64 64 4 16 (by decide) (by decide)
      (zeroKernel 64 (4 * 16)) (zeroBias (4 * 16)) (zeroKernel 64 (4 * 16))
      (zeroBias (4 * 16)) (zeroKernel 64 (4 * 16)) (zeroBias (4 * 16))
      (zeroKernel (4 * 16) 64) (zeroBias 64) (zeroInput 1 5 64)
  exact ⟨h1, claim_c4_result_shapes.1 ⟨64, 32⟩ saDemoParams demoInput
      saDemoResult.1 saDemoResult.2 h1 rfl,
    h2, claim_c4_result_shapes.2 ⟨64, 4, 16⟩ mhaDemoParams demoInput
      mhaDemoResult.1 mhaDemoResult.2 h2 rfl⟩

/-- C5: calling forward twice with identical weights and an identical input
tensor produces identical output and attention-weight tensors, for both the
single-head and the multi-head forward functions. -/
theorem claim_c5_determinism :
    (∀ (cfg : SelfAttentionConfig) (p p' : SelfAttentionParams) (x x' : Tensor3),
      p = p' → x = x' →
      SelfAttention.forward cfg p x = SelfAttention.forward cfg p' x') ∧
    (∀ (cfg : MultiHeadAttentionConfig) (p p' : MultiHeadAttentionParams) (x x' : Tensor3),
      p = p' → x = x' →
      MultiHeadAttention.forward cfg p x = MultiHeadAttention.forward cfg p' x') :=
  ⟨fun _ _ _ _ _ hp hx => by rw [hp, hx], fun _ _ _ _ _ hp hx => by rw [hp, hx]⟩

/-- C5 witness: the determinism statement applied at the notebook demo
configurations. -/
theorem claim_c5_witness :
    SelfAttention.forward ⟨64, 32⟩ saDemoParams demoInput =
      SelfAttention.forward ⟨64, 32⟩ saDemoParams demoInput ∧
    MultiHeadAttention.forward ⟨64, 4, 16⟩ mhaDemoParams demoInput =
      MultiHeadAttention.forward ⟨64, 4, 16⟩ mhaDemoParams demoInput :=
  ⟨claim_c5_determinism.1 ⟨64, 32⟩ saDemoParams saDemoParams demoInput demoInput rfl rfl,
   claim_c5_determinism.2 ⟨64, 4, 16⟩ mhaDemoParams mhaDemoParams demoInput demoInput rfl rfl⟩

/-- C6 counterexample: constructing with `head_dim = 0` (and even with
negative dimensions) succeeds for both components — nothing is rejected at
construction time. -/
theorem claim_c6_counterexample :
    (0 : ℤ) ≤ 0 ∧ (selfAttentionConstruct 64 0).isOk = true ∧
    (selfAttentionConstruct (-1) (-1)).isOk = true ∧
    (multiHeadAttentionConstruct 64 0 (-3)).isOk = true :=
  ⟨le_refl 0, rfl, rfl, rfl⟩

/-- C6 (amended): construction performs no validation at all — every
`embed_dim`, `head_dim`, `num_heads` combination, non-positive values
included, is accepted at construction for both components; invalid
configurations are not rejected before a forward call. -/
theorem claim_c6_construction_never_rejects :
    (∀ e h : ℤ, (selfAttentionConstruct e h).isOk = true) ∧
    (∀ e n h : ℤ, (multiHeadAttentionConstruct e n h).isOk = true) :=
  ⟨fun _ _ => rfl, fun _ _ _ => rfl⟩

/-- Multi-head parameters as `setup` would create them for `embed_dim = 32`,
initialized on an input of width 64. -/
def mhaMismatchParams : MultiHeadAttentionParams :=
  ⟨zeroDense 64 (4 * 16), zeroDense 64 (4 * 16), zeroDense 64 (4 * 16),
   zeroDense (4 * 16) 32⟩

/-- C7 counterexample: with parameters initialized at input width 64 but
`embed_dim` configured as 32, the input of trailing dimension 64 (≠ the
configured `embed_dim`) is accepted by both forward functions. -/
theorem claim_c7_counterexample :
    demoInput.d3 ≠ 32 ∧
    (SelfAttention.forward ⟨32, 32⟩ saDemoParams demoInput).isOk = true ∧
    (MultiHeadAttention.forward ⟨32, 4, 16⟩ mhaMismatchParams demoInput).isOk = true := by
  refine ⟨by decide, ?_, ?_⟩
  · exact (congrArg Except.isOk (selfAttention_forward_eval 1 5 64 32 32
      (zeroKernel 64 32) (zeroBias 32) (zeroKernel 64 32) (zeroBias 32)
      (zeroKernel 64 32) (zeroBias 32) (zeroInput 1 5 64))).trans rfl
  · exact (congrArg Except.isOk (multiHeadAttention_forward_eval 1 5 64 32 4 16
      (by decide) (by decide) (zeroKernel 64 (4 * 16)) (zeroBias (4 * 16))
      (zeroKernel 64 (4 * 16)) (zeroBias (4 * 16)) (zeroKernel 64 (4 * 16))
      (zeroBias (4 * 16)) (zeroKernel (4 * 16) 32) (zeroBias 32)
      (zeroInput 1 5 64))).trans rfl

/-- C7 (amended): every input whose trailing dimension differs from the
input width of the initialized query projection parameters is rejected
immediately by the forward call — never silently reshaped or truncated —
for both components.  (The configured `embed_dim` field itself is not what
is checked; see the C10 result.) -/
theorem claim_c7_trailing_dim_mismatch_rejected :
    (∀ (cfg : SelfAttentionConfig) (p : SelfAttentionParams) (x : Tensor3),
      x.d3 ≠ p.query.dIn → (SelfAttention.forward cfg p x).isOk = false) ∧
    (∀ (cfg : MultiHeadAttentionConfig) (p : MultiHeadAttentionParams) (x : Tensor3),
      x.d3 ≠ p.query.dIn → (MultiHeadAttention.forward cfg p x).isOk = false) := by
  constructor
  · intro cfg p x h
    unfold SelfAttention.forward
    rw [denseApply_mismatch h, except_bind_error_arg]
    rfl
  · intro cfg p x h
    unfold MultiHeadAttention.forward
    rw [denseApply_mismatch h, except_bind_error_arg]
    rfl

/-- C7 witness: a trailing dimension of 1 against projections of input
width 64 is rejected by both components. -/
theorem claim_c7_witness :
    ((⟨1, 1, 1, zeroInput 1 1 1⟩ : Tensor3).d3 ≠ saDemoParams.query.dIn) ∧
    (SelfAttention.forward ⟨64, 32⟩ saDemoParams ⟨1, 1, 1, zeroInput 1 1 1⟩).isOk = false ∧
    (MultiHeadAttention.forward ⟨64, 4, 16⟩ mhaDemoParams
      ⟨1, 1, 1, zeroInput 1 1 1⟩).isOk = false :=
  ⟨by decide,
   claim_c7_trailing_dim_mismatch_rejected.1 ⟨64, 32⟩ saDemoParams
     ⟨1, 1, 1, zeroInput 1 1 1⟩ (by decide),
   claim_c7_trailing_dim_mismatch_rejected.2 ⟨64, 4, 16⟩ mhaDemoParams
     ⟨1, 1, 1, zeroInput 1 1 1⟩ (by decide)⟩

/-- A score matrix of shape `(1, 2, 2)` whose two rows are equal to each
other but not constant within a row: every row is `(0, 1)`. -/
def c8Scores : Tensor3 := ⟨1, 2, 2, fun _ _ j => if j.1 = 0 then 0 else 1⟩

/-- A score matrix of shape `(1, 1, 2)` whose single row is constant. -/
def c8ConstScores : Tensor3 := ⟨1, 1, 2, fun _ _ _ => 3⟩

/-- C8 counterexample: in the scaling-and-softmax stage of the forward pass
(`softmax3` of `scalarDiv3`, lines 141–143 of the single-head notebook), a
score matrix whose rows are all equal to one another does not yield a
uniform attention-weight matrix: with rows `(0, 1)` and `head_dim = 1`, the
first weight of the first row differs from `1 / seq_len_k = 1 / 2`. -/
theorem claim_c8_counterexample :
    (∀ i i' : Fin 2, c8Scores.data (0 : Fin 1) i = c8Scores.data (0 : Fin 1) i') ∧
    (softmax3 (scalarDiv3 c8Scores (Real.sqrt 1))).data (0 : Fin 1) (0 : Fin 2)
      (0 : Fin 2) ≠ 1 / 2 := by
  refine ⟨fun i i' => rfl, ?_⟩
  have hcomp : (softmax3 (scalarDiv3 c8Scores (Real.sqrt 1))).data (0 : Fin 1)
      (0 : Fin 2) (0 : Fin 2) = 1 / (1 + Real.exp 1) := by
    simp only [softmax3, scalarDiv3, c8Scores, softmaxRow, Real.sqrt_one, div_one,
      Fin.sum_univ_two, Fin.val_zero, Fin.val_one]
    norm_num [Real.exp_zero]
  rw [hcomp]
  have h2 : (2 : ℝ) < Real.exp 1 := by
    have := Real.add_one_lt_exp (by norm_num : (1 : ℝ) ≠ 0)
    linarith
  have hpos : (0 : ℝ) < 1 + Real.exp 1 := by positivity
  intro h
  rw [div_eq_div_iff hpos.ne' (by norm_num : (2 : ℝ) ≠ 0)] at h
  linarith

/-- C8 (amended: the rows must be constant within themselves, not merely
equal to one another): if every entry of a row of the score matrix is the
same, then after the `1 / sqrt head_dim` scaling and softmax that row of
the attention-weight matrix is uniform, every cell being `1 / seq_len_k`. -/
theorem claim_c8_constant_rows_uniform (s : Tensor3) (c : ℝ) (b : Fin s.d1)
    (i : Fin s.d2) (hrow : ∀ j j' : Fin s.d3, s.data b i j = s.data b i j')
    (j : Fin s.d3) :
    (softmax3 (scalarDiv3 s c)).data b i j = 1 / s.d3 :=
  softmaxRow_const _ (s.data b i j / c)
    (fun k => congrArg (· / c) (hrow k j)) j

/-- C8 witness: the amended statement applied to a constant row of length 2,
giving weights `1 / 2`. -/
theorem claim_c8_witness :
    (∀ j j' : Fin 2, c8ConstScores.data (0 : Fin 1) (0 : Fin 1) j =
      c8ConstScores.data (0 : Fin 1) (0 : Fin 1) j') ∧
    (softmax3 (scalarDiv3 c8ConstScores 1)).data (0 : Fin 1) (0 : Fin 1) (0 : Fin 2) =
      1 / ((2 : ℕ) : ℝ) :=
  ⟨fun _ _ => rfl,
   claim_c8_constant_rows_uniform c8ConstScores 1 (0 : Fin 1) (0 : Fin 1)
     (fun _ _ => rfl) (0 : Fin 2)⟩

/-- C9: on an empty sequence (`seq_len = 0`, input shape `(1, 0, 1)`) the
single-head forward call succeeds with empty-shaped output and weights, but
the multi-head forward call faults: its final `reshape(batch, seq, -1)`
cannot infer the `-1` dimension of a size-0 array, contradicting the spec's
requirement that empty sequences propagate an empty-shaped result. -/
theorem claim_c9_empty_sequence :
    SelfAttention.forward ⟨1, 1⟩ saTinyParams emptySeqInput =
      .ok (⟨1, 0, 1, fun _ s _ => s.elim0⟩, ⟨1, 0, 0, fun _ s _ => s.elim0⟩) ∧
    MultiHeadAttention.forward ⟨1, 1, 1⟩ mhaTinyParams emptySeqInput =
      .error "reshape: cannot infer -1 dimension from a size-0 array" := by
  constructor
  · have h := selfAttention_forward_eval 1 0 1 1 1 (zeroKernel 1 1) (zeroBias 1)
      (zeroKernel 1 1) (zeroBias 1) (zeroKernel 1 1) (zeroBias 1) (zeroInput 1 0 1)
    refine h.trans (congrArg Except.ok ?_)
    unfold selfAttentionSpec
    exact congrArg₂ Prod.mk
      (congrArg (Tensor3.mk 1 0 1) (funext fun b => funext fun s => s.elim0))
      (congrArg (Tensor3.mk 1 0 0) (funext fun b => funext fun s => s.elim0))
  · exact mhaTiny_empty_error

/-- C10: the single-head forward result does not depend on the configured
`embed_dim` field — two configurations differing only in `embed_dim` give
identical results — and the forward call accepts any input whose trailing
dimension matches the width the parameters were initialized with, whatever
`embed_dim` says. -/
theorem claim_c10_embed_dim_unused :
    (∀ (e1 e2 hd : ℕ) (p : SelfAttentionParams) (x : Tensor3),
      SelfAttention.forward ⟨e1, hd⟩ p x = SelfAttention.forward ⟨e2, hd⟩ p x) ∧
    (∀ (B S d E hd : ℕ) (Wq : Fin d → Fin hd → ℝ) (bq : Fin hd → ℝ)
      (Wk : Fin d → Fin hd → ℝ) (bk : Fin hd → ℝ)
      (Wv : Fin d → Fin hd → ℝ) (bv : Fin hd → ℝ)
      (xf : Fin B → Fin S → Fin d → ℝ),
      (SelfAttention.forward ⟨E, hd⟩
        ⟨⟨d, hd, Wq, bq⟩, ⟨d, hd, Wk, bk⟩, ⟨d, hd, Wv, bv⟩⟩
        ⟨B, S, d, xf⟩).isOk = true) := by
  refine ⟨fun e1 e2 hd p x => rfl, fun B S d E hd Wq bq Wk bk Wv bv xf => ?_⟩
  exact (congrArg Except.isOk
    (selfAttention_forward_eval B S d E hd Wq bq Wk bk Wv bv xf)).trans rfl

end AttentionFlax

